import Mathlib

/-!
Shallow embedding of the HTTP-client and session logic of the notep web
client (src/src/utils/api.js, src/src/utils/request.js, and the callers
in src/src/App.jsx and the login page).

Modelling conventions:
* JavaScript values that flow through the interceptors are modelled by
  the inductive `JSVal` (undefined, null, booleans, integers, strings,
  objects as association lists).  Floating point is not needed: every
  number the code manipulates is an integer (epoch milliseconds, HTTP
  status codes, the business code 200).
* `localStorage` is the `Store` structure.  `getItem` returning `null`
  is `Option.none`; stored values are strings, as in the browser.
* Promise settlement is the inductive `JSOutcome`: a handler either
  resolves with a value, rejects with `new Error(msg)`, rejects with the
  normalized object literal `{success:false, message, code}`, or passes
  a raw axios error through unchanged.
* Time is an explicit `Int` parameter (epoch milliseconds); every call
  to `Date.now()` / `new Date().getTime()` reads it.
* Side effects that do not touch the store (console logging, `alert`,
  `window.confirm`, `window.location`) are not modelled.
-/

/-- A JavaScript value, as far as the client code inspects one. -/
inductive JSVal where
  | vUndefined : JSVal
  | vNull : JSVal
  | vBool : Bool → JSVal
  | vNum : Int → JSVal
  | vStr : String → JSVal
  | vObj : List (String × JSVal) → JSVal

/-- JavaScript truthiness for the value classes of `JSVal`
(`NaN` does not arise: the model has no floats). -/
def truthy : JSVal → Bool
  | .vUndefined => false
  | .vNull => false
  | .vBool b => b
  | .vNum n => n != 0
  | .vStr s => s != ""
  | .vObj _ => true

/-- Property access `v.k` (also covering `v?.k`): `undefined` unless `v`
is an object carrying the key. -/
def jsGet (v : JSVal) (k : String) : JSVal :=
  match v with
  | .vObj fields =>
    match fields.find? (fun p => p.1 == k) with
    | some p => p.2
    | none => .vUndefined
  | _ => .vUndefined

/-- The JavaScript `a || b`. -/
def jsOr (a b : JSVal) : JSVal :=
  if truthy a then a else b

/-- Strict equality against the number literal 200 (`data.code === 200`). -/
def isNum200 : JSVal → Bool
  | .vNum n => n == 200
  | _ => false

/-- Numeric value of a list of decimal digits. -/
def digitsToNat (ds : List Char) : Nat :=
  ds.foldl (fun acc c => acc * 10 + (c.toNat - 48)) 0

/-- JavaScript `parseInt` restricted to what the client feeds it:
leading spaces, an optional sign, then decimal digits; `none` models
`NaN` (no digit found).  Radix prefixes are not modelled — the stored
expiration strings are produced by `Number.prototype.toString`. -/
def parseIntJS (s : String) : Option Int :=
  let cs := s.toList.dropWhile (fun c => c == ' ')
  match cs with
  | '-' :: rest =>
    let ds := rest.takeWhile Char.isDigit
    if ds.isEmpty then none else some (-(digitsToNat ds : Int))
  | _ =>
    let cs2 := match cs with
      | '+' :: rest => rest
      | other => other
    let ds := cs2.takeWhile Char.isDigit
    if ds.isEmpty then none else some (digitsToNat ds : Int)

/-- The JavaScript comparison `now > p` where `p` came from `parseInt`:
any comparison against `NaN` (here `none`) is false. -/
def jsGtNum (now : Int) (p : Option Int) : Bool :=
  match p with
  | some v => v < now
  | none => false

/-- Truthiness of a `localStorage.getItem` result: `null` and the empty
string are falsy. -/
def strTruthy : Option String → Bool
  | none => false
  | some s => s != ""

/-- The persistent key-value storage (`localStorage`).  Keys used by the
code: `userToken`, `userInfo`, `tokenExpiration` (api.js and App.jsx)
and `token` (request.js). -/
structure Store where
  userToken : Option String
  userInfo : Option String
  tokenExpiration : Option String
  token : Option String
deriving DecidableEq

/-- The `error.response` part of an axios error: transport status and
parsed body. -/
structure ErrResp where
  status : Int
  data : JSVal

/-- An axios transport error: `response` is `none` exactly when no
response was received; `code` is the transport error code
(e.g. `ECONNABORTED` on timeout). -/
structure AxiosError where
  response : Option ErrResp
  code : Option String

/-- How a promise handler settles. -/
inductive JSOutcome where
  | resolved : JSVal → JSOutcome
  | rejectedError : JSVal → JSOutcome
  | rejectedNorm : JSVal → JSVal → JSOutcome
  | rejectedRaw : AxiosError → JSOutcome

/-- Holds exactly for rejections carrying the normalized object literal
shape `\x7bsuccess:false, message, code\x7d`. -/
def isNormalizedRejection : JSOutcome → Bool
  | .rejectedNorm _ _ => true
  | _ => false

/-- Holds exactly for rejections carrying `new Error(message)`. -/
def isErrorRejection : JSOutcome → Bool
  | .rejectedError _ => true
  | _ => false

/-- Holds for every rejected outcome. -/
def isRejection : JSOutcome → Bool
  | .resolved _ => false
  | _ => true

/-- An outgoing request before/after the request interceptors. -/
structure RequestConfig where
  method : String
  url : String
  params : List (String × JSVal)
  headers : List (String × String)

/-- Object-spread update of a params object (`\x7b...params, k: v\x7d`);
insertion order of keys is not significant for any property proved here. -/
def setParam (ps : List (String × JSVal)) (k : String) (v : JSVal) :
    List (String × JSVal) :=
  (k, v) :: ps.filter (fun p => p.1 != k)

/-- Lookup in a params object. -/
def getParam (ps : List (String × JSVal)) (k : String) : Option JSVal :=
  (ps.find? (fun p => p.1 == k)).map (fun p => p.2)

/-- Header update. -/
def setHeader (hs : List (String × String)) (k : String) (v : String) :
    List (String × String) :=
  (k, v) :: hs.filter (fun p => p.1 != k)

/-- api.js request interceptor: attaches `Authorization` when a truthy
`userToken` is stored, plus the platform headers.  It never touches
`config.params`. -/
def apiOnRequest (store : Store) (cfg : RequestConfig) : RequestConfig :=
  let h1 := match store.userToken with
    | some t => if t != "" then setHeader cfg.headers "Authorization" ("Bearer " ++ t)
                else cfg.headers
    | none => cfg.headers
  { cfg with
    headers := setHeader (setHeader h1 "X-Platform" "web") "X-Client-Version" "1.0.0" }

/-- request.js request interceptor: attaches `Authorization` when a
truthy `token` is stored and, for GET requests, spreads
`_t: Date.now()` into the params. -/
def requestOnRequest (store : Store) (now : Int) (cfg : RequestConfig) :
    RequestConfig :=
  let h := match store.token with
    | some t => if t != "" then setHeader cfg.headers "Authorization" ("Bearer " ++ t)
                else cfg.headers
    | none => cfg.headers
  let ps := if cfg.method == "get" then setParam cfg.params "_t" (.vNum now)
            else cfg.params
  { cfg with headers := h, params := ps }

/-- api.js response success handler: `(response) => response.data` —
resolves with the body unconditionally. -/
def apiOnSuccess (response : JSVal) : JSOutcome :=
  .resolved (jsGet response "data")

/-- request.js response success handler: unwraps `response.data`; if
`data.code === 200 || data.success` resolves with `data.data || data`,
otherwise rejects with `new Error(data.message || '请求失败')`. -/
def requestOnSuccess (response : JSVal) : JSOutcome :=
  let data := jsGet response "data"
  if isNum200 (jsGet data "code") || truthy (jsGet data "success") then
    .resolved (jsOr (jsGet data "data") data)
  else
    .rejectedError (jsOr (jsGet data "message") (.vStr "请求失败"))

/-- api.js response error handler.  Returns the store after its side
effects together with the produced rejection.  On 401 it removes
`userToken` and `userInfo` (and only those two keys) before rejecting
with the normalized `UNAUTHORIZED` object. -/
def apiOnError (store : Store) (err : AxiosError) : Store × JSOutcome :=
  match err.response with
  | none =>
    (store, .rejectedNorm (.vStr "网络连接失败，请检查网络设置") (.vStr "NETWORK_ERROR"))
  | some r =>
    if r.status == 401 then
      ({ store with userToken := none, userInfo := none },
       .rejectedNorm (.vStr "登录已过期，请重新登录") (.vStr "UNAUTHORIZED"))
    else if r.status == 403 then
      (store, .rejectedNorm (.vStr "没有权限访问该资源") (.vStr "FORBIDDEN"))
    else if r.status == 404 then
      (store, .rejectedNorm (.vStr "请求的资源不存在") (.vStr "NOT_FOUND"))
    else if r.status == 500 then
      (store, .rejectedNorm (.vStr "服务器内部错误，请稍后重试") (.vStr "SERVER_ERROR"))
    else
      (store, .rejectedNorm (jsOr (jsGet r.data "message") (.vStr "请求失败，请重试"))
                            (jsOr (jsGet r.data "code") (.vStr "UNKNOWN_ERROR")))

/-- request.js response error handler.  On 401 it removes the `token`
key; every branch rejects with `new Error(message)`. -/
def requestOnError (store : Store) (err : AxiosError) : Store × JSOutcome :=
  match err.response with
  | some r =>
    if r.status == 401 then
      ({ store with token := none }, .rejectedError (.vStr "未授权，请重新登录"))
    else if r.status == 403 then
      (store, .rejectedError (.vStr "拒绝访问"))
    else if r.status == 404 then
      (store, .rejectedError (.vStr "请求地址不存在"))
    else if r.status == 500 then
      (store, .rejectedError (.vStr "服务器内部错误"))
    else
      (store, .rejectedError
        (jsOr (jsGet r.data "message")
              (.vStr ("请求失败 (" ++ toString r.status ++ ")"))))
  | none =>
    if err.code == some "ECONNABORTED" then
      (store, .rejectedError (.vStr "请求超时"))
    else
      (store, .rejectedError (.vStr "网络错误"))

/-- api.js request interceptor error handler: passes the raw error on
(`return Promise.reject(error)`). -/
def apiOnRequestError (err : AxiosError) : JSOutcome :=
  .rejectedRaw err

/-- The expiry test shared by `checkLoginStatus` and `getUserInfo`:
`expirationTime && new Date().getTime() > parseInt(expirationTime)`. -/
def expiredNow (store : Store) (now : Int) : Bool :=
  match store.tokenExpiration with
  | none => false
  | some e => (e != "") && jsGtNum now (parseIntJS e)

/-- `checkLoginStatus` of api.js (the Session Store `isValid()`):
returns the boolean together with the store after the call.  With no
truthy token it returns false WITHOUT clearing; on detected expiry it
removes `userToken`, `userInfo` and `tokenExpiration` and returns
false; otherwise true. -/
def checkLoginStatus (store : Store) (now : Int) : Bool × Store :=
  if strTruthy store.userToken then
    if expiredNow store now then
      (false, { store with userToken := none, userInfo := none, tokenExpiration := none })
    else
      (true, store)
  else
    (false, store)

/-- The `\x7bsuccess, data, message\x7d` (plus `code` on failure) value an
auth operation returns to its caller. -/
structure AuthResult where
  success : Bool
  data : JSVal
  message : JSVal
  code : JSVal

/-- `getUserInfo` of api.js: first checks local expiry (throwing
`new Error('Token已过期')`, caught below, when stale), otherwise awaits
the network outcome `net` (already processed by the interceptors).  The
boolean records whether the network call was issued. -/
def getUserInfo (store : Store) (now : Int) (net : JSOutcome) :
    AuthResult × Bool :=
  if expiredNow store now then
    ({ success := false, data := .vUndefined,
       message := jsOr (.vStr "Token已过期") (.vStr "获取用户信息失败"),
       code := .vUndefined }, false)
  else
    match net with
    | .resolved body =>
      ({ success := true, data := jsGet body "data",
         message := jsOr (jsGet body "message") (.vStr "获取用户信息成功"),
         code := .vUndefined }, true)
    | .rejectedError m =>
      ({ success := false, data := .vUndefined,
         message := jsOr m (.vStr "获取用户信息失败"), code := .vUndefined }, true)
    | .rejectedNorm m c =>
      ({ success := false, data := .vUndefined,
         message := jsOr m (.vStr "获取用户信息失败"), code := c }, true)
    | .rejectedRaw _ =>
      -- a raw rejection only arises from the request-interceptor error
      -- path, whose axios error carries no modelled message
      ({ success := false, data := .vUndefined,
         message := .vStr "获取用户信息失败", code := .vUndefined }, true)

/-- `loginUser` of api.js, from the point where the network outcome
`net` (already processed by the interceptors) settles.  On a resolved
body with a truthy `data.token` it persists
`tokenExpiration := (now + 24*60*60*1000).toString()`. -/
def loginUser (store : Store) (now : Int) (net : JSOutcome) :
    AuthResult × Store :=
  match net with
  | .resolved body =>
    let store1 :=
      if truthy (jsGet (jsGet body "data") "token") then
        { store with tokenExpiration := some (toString (now + 24 * 60 * 60 * 1000)) }
      else store
    ({ success := true, data := jsGet body "data",
       message := jsOr (jsGet body "message") (.vStr "登录成功"),
       code := .vUndefined }, store1)
  | .rejectedError m =>
    ({ success := false, data := .vUndefined,
       message := jsOr m (.vStr "登录失败，请重试"), code := .vUndefined }, store)
  | .rejectedNorm m c =>
    ({ success := false, data := .vUndefined,
       message := jsOr m (.vStr "登录失败，请重试"), code := c }, store)
  | .rejectedRaw _ =>
    ({ success := false, data := .vUndefined,
       message := .vStr "登录失败，请重试", code := .vUndefined }, store)

/-- The numeric expiration the store records: the stored string as
`parseInt` reads it, `none` when absent or unparsable. -/
def recordedExp (store : Store) : Option Int :=
  store.tokenExpiration.bind parseIntJS

/-- A store with every key absent. -/
def emptyStore : Store :=
  { userToken := none, userInfo := none, tokenExpiration := none, token := none }

/-- Response body `\x7bdata:\x7btoken:"t1", userInfo:\x7bid:1\x7d\x7d\x7d` of claim C6. -/
def bodyC6 : JSVal :=
  .vObj [("data", .vObj [("token", .vStr "t1"), ("userInfo", .vObj [("id", .vNum 1)])])]

/-- A 2xx body reporting business failure (code 500, success false). -/
def bodyC3 : JSVal :=
  .vObj [("code", .vNum 500), ("success", .vBool false), ("message", .vStr "fail")]

/-- A 2xx body reporting success whose nested data field is null. -/
def bodyC9 : JSVal :=
  .vObj [("code", .vNum 200), ("data", .vNull), ("message", .vStr "ok")]

/-- A store holding a token, user info and an expiration string "1000". -/
def storeC5 : Store :=
  { userToken := some "tok", userInfo := some "u", tokenExpiration := some "1000",
    token := none }

/-- A store holding a token and an already-past expiration "100". -/
def storeC7 : Store :=
  { userToken := some "tok", userInfo := some "u", tokenExpiration := some "100",
    token := none }

/-- A store with NO token but user info and a past expiration "100". -/
def storeC8x : Store :=
  { userToken := none, userInfo := some "u", tokenExpiration := some "100",
    token := none }

/-- A store holding a token and a corrupted (non-numeric) expiration. -/
def storeC10 : Store :=
  { userToken := some "tok", userInfo := some "u", tokenExpiration := some "abc",
    token := none }

/-- A fully populated store, to observe what the 401 handler clears. -/
def storeC1 : Store :=
  { userToken := some "tok", userInfo := some "u", tokenExpiration := some "123",
    token := some "tok" }

/-- An axios error carrying a 401 response. -/
def errC1 : AxiosError :=
  { response := some { status := 401, data := .vNull }, code := none }

/-- An axios error carrying a 500 response. -/
def errC2 : AxiosError :=
  { response := some { status := 500, data := .vNull }, code := none }

/-- A GET request config with no params. -/
def cfgC4 : RequestConfig :=
  { method := "get", url := "/user/info", params := [], headers := [] }

theorem getParam_setParam (ps : List (String × JSVal)) (k : String) (v : JSVal) :
    getParam (setParam ps k v) k = some v := by
  simp [getParam, setParam]

theorem parseIntJS_empty : parseIntJS "" = none := rfl

/-- C6: a successful login call made at time T whose response payload is
\x7btoken:"t1", userInfo:\x7bid:1\x7d\x7d persists a token expiration
timestamp equal to T + 86400000 milliseconds (stored as its decimal
string, exactly as localStorage stores it). -/
theorem c6_login_persists_expiration (store : Store) (T : Int) :
    (loginUser store T (.resolved bodyC6)).1.success = true ∧
      (loginUser store T (.resolved bodyC6)).2.tokenExpiration
        = some (toString (T + 86400000)) := by
  constructor
  · rfl
  · rfl

/-- C7: when the stored expiration timestamp parses to a number strictly
less than the current time, getUserInfo returns a failure result and
issues no network call (whatever the network would have answered). -/
theorem c7_fetch_profile_expired (store : Store) (now : Int) (net : JSOutcome)
    (e : String) (n : Int)
    (hexp : store.tokenExpiration = some e)
    (hp : parseIntJS e = some n) (hlt : n < now) :
    (getUserInfo store now net).1.success = false ∧
      (getUserInfo store now net).2 = false := by
  have he : e ≠ "" := by
    intro h
    rw [h, parseIntJS_empty] at hp
    exact Option.noConfusion hp
  have hex : expiredNow store now = true := by
    simp [expiredNow, hexp, he, hp, jsGtNum, hlt]
  simp [getUserInfo, hex]

/-- C7 witness: a store whose expiration "100" is before now = 1000. -/
theorem c7_fetch_profile_expired_witness :
    (getUserInfo storeC7 1000 (.resolved .vNull)).1.success = false ∧
      (getUserInfo storeC7 1000 (.resolved .vNull)).2 = false :=
  c7_fetch_profile_expired storeC7 1000 (.resolved .vNull) "100" 100
    rfl (by decide) (by decide)

/-- C9: a 2xx body carrying the success indicator whose data field is
falsy makes the request.js success handler resolve with the entire body
object. -/
theorem c9_falsy_data_resolves_body (body : JSVal)
    (hsucc : (isNum200 (jsGet body "code") || truthy (jsGet body "success")) = true)
    (hdata : truthy (jsGet body "data") = false) :
    requestOnSuccess (.vObj [("data", body)]) = .resolved body := by
  have hb : jsGet (.vObj [("data", body)]) "data" = body := rfl
  simp [requestOnSuccess, hb, hsucc, jsOr, hdata]

/-- C9 witness: body with code 200 and data null resolves to the body. -/
theorem c9_falsy_data_resolves_body_witness :
    requestOnSuccess (.vObj [("data", bodyC9)]) = .resolved bodyC9 :=
  c9_falsy_data_resolves_body bodyC9 (by decide) (by decide)

/-- C10: with a token present and a stored expiration string parseInt
cannot read (NaN), checkLoginStatus returns true and leaves the store
unchanged: a corrupted expiration makes the session never expire. -/
theorem c10_nan_expiration_never_expires (store : Store) (now : Int)
    (t e : String)
    (htok : store.userToken = some t) (ht : t ≠ "")
    (hexp : store.tokenExpiration = some e)
    (hnan : parseIntJS e = none) :
    checkLoginStatus store now = (true, store) := by
  have h1 : strTruthy store.userToken = true := by
    simp [strTruthy, htok, ht]
  have h2 : expiredNow store now = false := by
    simp [expiredNow, hexp, hnan, jsGtNum]
  simp [checkLoginStatus, h1, h2]

/-- C10 witness: expiration "abc" at any time keeps the session valid. -/
theorem c10_nan_expiration_never_expires_witness :
    checkLoginStatus storeC10 999999 = (true, storeC10) :=
  c10_nan_expiration_never_expires storeC10 999999 "tok" "abc"
    rfl (by decide) rfl (by decide)

/-- C1 counterexample: after EITHER 401 handler runs on a fully
populated store, the tokenExpiration key is still present (api.js never
removes it; request.js removes only its own token key and also leaves
the user info), so the Session Store is not empty after the response
interceptor in either wrapper. -/
theorem c1_401_counterexample :
    errC1.response = some { status := 401, data := .vNull } ∧
      (apiOnError storeC1 errC1).1.tokenExpiration = some "123" ∧
      (apiOnError storeC1 errC1).1.tokenExpiration ≠ none ∧
      (requestOnError storeC1 errC1).1.tokenExpiration = some "123" ∧
      (requestOnError storeC1 errC1).1.userInfo = some "u" ∧
      (requestOnError storeC1 errC1).1.userToken = some "tok" := by
  refine ⟨rfl, rfl, ?_, rfl, rfl, rfl⟩
  intro h
  exact Option.noConfusion h

/-- C1 amended: on a 401 response the api.js handler removes the token
and the user info and rejects with the normalized unauthorized object
but leaves the token expiration timestamp exactly as it was, while the
request.js handler removes only its own token key and leaves the user
token, the user info and the token expiration timestamp untouched — in
neither wrapper is the Session Store emptied. -/
theorem c1_401_partial_clear (store : Store) (err : AxiosError) (r : ErrResp)
    (hr : err.response = some r) (h401 : r.status = 401) :
    ((apiOnError store err).1.userToken = none ∧
      (apiOnError store err).1.userInfo = none ∧
      (apiOnError store err).1.tokenExpiration = store.tokenExpiration ∧
      isNormalizedRejection (apiOnError store err).2 = true) ∧
    ((requestOnError store err).1.token = none ∧
      (requestOnError store err).1.userToken = store.userToken ∧
      (requestOnError store err).1.userInfo = store.userInfo ∧
      (requestOnError store err).1.tokenExpiration = store.tokenExpiration ∧
      isErrorRejection (requestOnError store err).2 = true) := by
  constructor
  · simp [apiOnError, hr, h401, isNormalizedRejection]
  · simp [requestOnError, hr, h401, isErrorRejection]

/-- C1 witness: the amended statement at the concrete 401 error. -/
theorem c1_401_partial_clear_witness :
    ((apiOnError storeC1 errC1).1.userToken = none ∧
      (apiOnError storeC1 errC1).1.userInfo = none ∧
      (apiOnError storeC1 errC1).1.tokenExpiration = storeC1.tokenExpiration ∧
      isNormalizedRejection (apiOnError storeC1 errC1).2 = true) ∧
    ((requestOnError storeC1 errC1).1.token = none ∧
      (requestOnError storeC1 errC1).1.userToken = storeC1.userToken ∧
      (requestOnError storeC1 errC1).1.userInfo = storeC1.userInfo ∧
      (requestOnError storeC1 errC1).1.tokenExpiration = storeC1.tokenExpiration ∧
      isErrorRejection (requestOnError storeC1 errC1).2 = true) :=
  c1_401_partial_clear storeC1 errC1 { status := 401, data := .vNull } rfl rfl

/-- C2 counterexample: request.js answers a 500 transport failure with a
rejection carrying `new Error('服务器内部错误')`, which is not the
normalized object shape (no success flag, no code field). -/
theorem c2_normalized_counterexample :
    (requestOnError emptyStore errC2).2 = .rejectedError (.vStr "服务器内部错误") ∧
      isNormalizedRejection (requestOnError emptyStore errC2).2 = false :=
  ⟨rfl, rfl⟩

/-- C2 amended: neither response error handler lets the raw transport
error through — both always reject with a constructed value — but only
api.js uses the normalized object shape; request.js rejects with an
Error carrying just a message. -/
theorem c2_rejection_shapes (store : Store) (err : AxiosError) :
    isNormalizedRejection (apiOnError store err).2 = true ∧
      isErrorRejection (requestOnError store err).2 = true := by
  constructor
  · unfold apiOnError
    cases err.response with
    | none => rfl
    | some r =>
      dsimp only
      split_ifs <;> rfl
  · unfold requestOnError
    cases err.response with
    | none =>
      dsimp only
      split_ifs <;> rfl
    | some r =>
      dsimp only
      split_ifs <;> rfl

/-- C3 counterexample: api.js resolves a 2xx response whose body reports
non-success (code 500, success false) instead of rejecting it. -/
theorem c3_business_failure_counterexample :
    isNum200 (jsGet bodyC3 "code") = false ∧
      truthy (jsGet bodyC3 "success") = false ∧
      apiOnSuccess (.vObj [("data", bodyC3)]) = .resolved bodyC3 ∧
      isRejection (apiOnSuccess (.vObj [("data", bodyC3)])) = false :=
  ⟨rfl, rfl, rfl, rfl⟩

/-- C3 amended: request.js rejects every 2xx body reporting non-success
with the body's message, while api.js resolves the very same response
with the whole body, so only request.js implements the claimed
rejection. -/
theorem c3_business_failure_split (body : JSVal) (m : String)
    (hcode : isNum200 (jsGet body "code") = false)
    (hflag : truthy (jsGet body "success") = false)
    (hmsg : jsGet body "message" = .vStr m) (hm : m ≠ "") :
    requestOnSuccess (.vObj [("data", body)]) = .rejectedError (.vStr m) ∧
      apiOnSuccess (.vObj [("data", body)]) = .resolved body := by
  have hb : jsGet (.vObj [("data", body)]) "data" = body := rfl
  have hm2 : truthy (.vStr m) = true := by simp [truthy, hm]
  constructor
  · simp [requestOnSuccess, hb, hcode, hflag, hmsg, jsOr, hm2]
  · simp [apiOnSuccess, hb]

/-- C3 witness: the amended statement at the concrete failing body. -/
theorem c3_business_failure_split_witness :
    requestOnSuccess (.vObj [("data", bodyC3)]) = .rejectedError (.vStr "fail") ∧
      apiOnSuccess (.vObj [("data", bodyC3)]) = .resolved bodyC3 :=
  c3_business_failure_split bodyC3 "fail" rfl rfl rfl (by decide)

/-- C4 counterexample: two GET requests both issued at millisecond 1000
receive the very same cache-busting parameter (1000), not different
ones; and the api.js request interceptor appends no cache-buster at
all. -/
theorem c4_cachebuster_counterexample :
    getParam (requestOnRequest emptyStore 1000 cfgC4).params "_t"
        = getParam (requestOnRequest emptyStore 1000 cfgC4).params "_t" ∧
      getParam (requestOnRequest emptyStore 1000 cfgC4).params "_t"
        = some (.vNum 1000) ∧
      getParam (apiOnRequest emptyStore cfgC4).params "_t" = none :=
  ⟨rfl, rfl, rfl⟩

/-- C4 amended: the request.js cache-buster equals the request-time
millisecond timestamp, so two GETs issued at different milliseconds get
different busters while GETs in the same millisecond share one; api.js
leaves the params untouched entirely. -/
theorem c4_cachebuster_distinct_times (store1 store2 : Store)
    (cfg : RequestConfig) (t1 t2 : Int)
    (hm : cfg.method = "get") (hne : t1 ≠ t2) :
    getParam (requestOnRequest store1 t1 cfg).params "_t"
        ≠ getParam (requestOnRequest store2 t2 cfg).params "_t" ∧
      (apiOnRequest store1 cfg).params = cfg.params := by
  have h1 : getParam (requestOnRequest store1 t1 cfg).params "_t"
      = some (.vNum t1) := by
    simp only [requestOnRequest, hm]
    simpa using getParam_setParam cfg.params "_t" (.vNum t1)
  have h2 : getParam (requestOnRequest store2 t2 cfg).params "_t"
      = some (.vNum t2) := by
    simp only [requestOnRequest, hm]
    simpa using getParam_setParam cfg.params "_t" (.vNum t2)
  refine ⟨?_, rfl⟩
  rw [h1, h2]
  simp only [ne_eq, Option.some.injEq, JSVal.vNum.injEq]
  exact hne

/-- C4 witness: the amended statement at times 0 and 1 on a GET
config. -/
theorem c4_cachebuster_distinct_times_witness :
    getParam (requestOnRequest emptyStore 0 cfgC4).params "_t"
        ≠ getParam (requestOnRequest emptyStore 1 cfgC4).params "_t" ∧
      (apiOnRequest emptyStore cfgC4).params = cfgC4.params :=
  c4_cachebuster_distinct_times emptyStore emptyStore cfgC4 0 1 rfl (by decide)

/-- C5 counterexample: with current time equal to the recorded
expiration (1000), checkLoginStatus returns true although the claim's
strict inequality would require false, so the claimed equivalence fails
at this state. -/
theorem c5_isvalid_counterexample :
    ¬ ((checkLoginStatus storeC5 1000).1 = true ↔
        ∃ t, storeC5.userToken = some t ∧ t ≠ "" ∧
          (recordedExp storeC5 = none ∨
            ∃ e, recordedExp storeC5 = some e ∧ (1000 : Int) < e)) := by
  intro h
  have hval : (checkLoginStatus storeC5 1000).1 = true := by decide
  obtain ⟨t, _, _, hcase⟩ := h.mp hval
  have hrec : recordedExp storeC5 = some 1000 := by decide
  rcases hcase with hnone | ⟨e, he, hlt⟩
  · rw [hrec] at hnone
    exact Option.noConfusion hnone
  · rw [hrec] at he
    have : (1000 : Int) = e := by
      injection he
    omega

/-- C5 amended: checkLoginStatus returns true if and only if a
non-empty token is stored and either no numeric expiration is recorded
(absent, empty or unparsable) or the current time is less than OR EQUAL
to the recorded expiration — the boundary instant still counts as
valid. -/
theorem c5_isvalid_iff (store : Store) (now : Int) :
    (checkLoginStatus store now).1 = true ↔
      ∃ t, store.userToken = some t ∧ t ≠ "" ∧
        (recordedExp store = none ∨
          ∃ e, recordedExp store = some e ∧ now ≤ e) := by
  cases htok : store.userToken with
  | none => simp [checkLoginStatus, strTruthy, htok]
  | some t =>
    by_cases ht : t = ""
    · subst ht
      simp [checkLoginStatus, strTruthy, htok]
    · cases hexp : store.tokenExpiration with
      | none =>
        simp [checkLoginStatus, strTruthy, htok, ht, expiredNow, hexp,
          recordedExp]
      | some e =>
        cases hp : parseIntJS e with
        | none =>
          simp [checkLoginStatus, strTruthy, htok, ht, expiredNow, hexp,
            recordedExp, hp, jsGtNum]
        | some v =>
          have he : e ≠ "" := by
            intro h
            rw [h, parseIntJS_empty] at hp
            exact Option.noConfusion hp
          by_cases hlt : v < now
          · simp only [checkLoginStatus, strTruthy, expiredNow, hexp,
              recordedExp, htok, hp, jsGtNum, he, ht, hlt]
            simp [ht, hlt]
            rw [if_neg he]
            simp [hp]
            omega
          · simp only [checkLoginStatus, strTruthy, expiredNow, hexp,
              recordedExp, htok, hp, jsGtNum, he, ht, hlt]
            simp [ht, hlt]
            rw [hp]
            exact Or.inr ⟨v, rfl, by omega⟩

/-- C8 counterexample: a store with no token, remaining user info and a
past expiration ("100" < 1000): checkLoginStatus returns false but
clears nothing, so user info and the expiration timestamp are still
present afterwards. -/
theorem c8_expired_clear_counterexample :
    parseIntJS "100" = some 100 ∧ ((100 : Int) < 1000) = True ∧
      (checkLoginStatus storeC8x 1000).1 = false ∧
      (checkLoginStatus storeC8x 1000).2 = storeC8x ∧
      (checkLoginStatus storeC8x 1000).2.tokenExpiration = some "100" ∧
      (checkLoginStatus storeC8x 1000).2.userInfo = some "u" := by
  refine ⟨by decide, by simp, by decide, by decide, by decide, by decide⟩

/-- C8 amended: when additionally a non-empty token is stored,
checkLoginStatus on a past expiration returns false and removes the
token, the user info and the expiration timestamp; without a token it
returns false but leaves the store untouched. -/
theorem c8_expired_with_token_clears (store : Store) (now : Int)
    (t e : String) (n : Int)
    (htok : store.userToken = some t) (ht : t ≠ "")
    (hexp : store.tokenExpiration = some e)
    (hp : parseIntJS e = some n) (hlt : n < now) :
    (checkLoginStatus store now).1 = false ∧
      (checkLoginStatus store now).2.userToken = none ∧
      (checkLoginStatus store now).2.userInfo = none ∧
      (checkLoginStatus store now).2.tokenExpiration = none := by
  have he : e ≠ "" := by
    intro h
    rw [h, parseIntJS_empty] at hp
    exact Option.noConfusion hp
  have h1 : strTruthy store.userToken = true := by
    simp [strTruthy, htok, ht]
  have h2 : expiredNow store now = true := by
    simp [expiredNow, hexp, he, hp, jsGtNum, hlt]
  simp [checkLoginStatus, h1, h2]

/-- C8 witness: the amended statement on a tokened store with
expiration "100" at time 1000. -/
theorem c8_expired_with_token_clears_witness :
    (checkLoginStatus storeC7 1000).1 = false ∧
      (checkLoginStatus storeC7 1000).2.userToken = none ∧
      (checkLoginStatus storeC7 1000).2.userInfo = none ∧
      (checkLoginStatus storeC7 1000).2.tokenExpiration = none :=
  c8_expired_with_token_clears storeC7 1000 "tok" "100" 100
    rfl (by decide) rfl (by decide) (by decide)
